import Mathlib

/-!
Verification of the Krabby council-of-LLMs deliberation system.

The repository contains the backend model wrappers (src/council/models.py),
configuration loading (src/config.py) and the CLI / GUI front ends
(src/main.py, src/main_gui.py).  The deliberation core (the Council class
with its opinion / discussion / voting stages, tally engine and retry
wrapper) is imported by both front ends but its source file is not part of
the snapshot; those parts are modelled from the specification and each such
definition says so in its doc comment.  Everything else is embedded
directly from the Python source.
-/

namespace Krabby

/-! ## Tally engine (modelled from the spec, section 4.5) -/

/-- Modelled from the spec: a ballot choice as seen by the Tally Engine.
A valid ballot names an opinion id; an abstention (unparseable reply or a
failed vote call) is represented by none.  The valid ballots are the
non-abstaining ones. -/
def validBallots (ballots : List (Option String)) : List String :=
  ballots.filterMap id

/-- Modelled from the spec: number of valid (non-abstaining) ballots that
chose the given opinion id. -/
def voteCount (ballots : List (Option String)) (oid : String) : Nat :=
  (validBallots ballots).count oid

/-- Modelled from the spec: first element of the list attaining the maximum
score; on a tie the earlier element is kept.  Returns none only on an empty
list. -/
def argmaxFirst {α : Type} (f : α → Nat) : List α → Option α
  | [] => none
  | x :: xs =>
    match argmaxFirst f xs with
    | none => some x
    | some y => if f x < f y then some y else some x

/-- Maximum score over a list (0 on the empty list). -/
def maxScore {α : Type} (f : α → Nat) (l : List α) : Nat :=
  l.foldr (fun a m => max (f a) m) 0

/-- Modelled from the spec: the aggregate produced by the Tally Engine. -/
structure TallyResult where
  winnerId : String
  winningVotes : Nat
  totalVotes : Nat
  voteCounts : List (String × Nat)
deriving Repr, DecidableEq

/-- Modelled from the spec: the Tally Engine.  Counts valid ballots per
opinion id; the winner is the id with the maximum count, ties broken by the
earliest id in roster order; totalVotes counts the valid ballots.  When all
ballots abstain the engine fails with NoConsensus, modelled as none. -/
def tally (rosterIds : List String) (ballots : List (Option String)) :
    Option TallyResult :=
  if (validBallots ballots).length = 0 then none
  else
    match argmaxFirst (voteCount ballots) rosterIds with
    | none => none
    | some w =>
      some { winnerId := w
             winningVotes := voteCount ballots w
             totalVotes := (validBallots ballots).length
             voteCounts := rosterIds.map (fun i => (i, voteCount ballots i)) }

theorem maxScore_le_of_mem {α : Type} (f : α → Nat) {l : List α} {z : α}
    (hz : z ∈ l) : f z ≤ maxScore f l := by
  induction l with
  | nil => cases hz
  | cons a as ih =>
    rcases List.mem_cons.mp hz with h | h
    · subst h; exact le_max_left _ _
    · exact le_trans (ih h) (le_max_right _ _)

theorem argmaxFirst_eq_none {α : Type} (f : α → Nat) (l : List α) :
    argmaxFirst f l = none ↔ l = [] := by
  cases l with
  | nil => simp [argmaxFirst]
  | cons a as =>
    simp only [argmaxFirst]
    constructor
    · intro h
      cases hm : argmaxFirst f as with
      | none => rw [hm] at h; cases h
      | some y => rw [hm] at h; dsimp at h; split at h <;> cases h
    · intro h; cases h

theorem argmaxFirst_mem {α : Type} (f : α → Nat) {l : List α} {y : α}
    (h : argmaxFirst f l = some y) : y ∈ l := by
  induction l with
  | nil => cases h
  | cons a as ih =>
    simp only [argmaxFirst] at h
    cases hm : argmaxFirst f as with
    | none => rw [hm] at h; cases h; exact List.mem_cons_self _ _
    | some z =>
      rw [hm] at h; dsimp at h
      split at h
      · cases h; exact List.mem_cons_of_mem a (ih hm)
      · cases h; exact List.mem_cons_self _ _

/-- The selection function returns exactly the first element whose score
reaches the maximum: this is the roster-order tie-break. -/
theorem argmaxFirst_eq_find {α : Type} (f : α → Nat) (l : List α) :
    argmaxFirst f l = l.find? (fun x => decide (maxScore f l ≤ f x)) := by
  induction l with
  | nil => rfl
  | cons a as ih =>
    simp only [argmaxFirst]
    cases hm : argmaxFirst f as with
    | none =>
      have has : as = [] := (argmaxFirst_eq_none f as).mp hm
      subst has
      simp [maxScore, List.find?]
    | some y =>
      have hy : y ∈ as := argmaxFirst_mem f hm
      have hle : f y ≤ maxScore f as := maxScore_le_of_mem f hy
      have hfind := ih.symm.trans hm
      have hge : maxScore f as ≤ f y := by
        have := List.find?_some hfind
        exact of_decide_eq_true this
      have hmax : maxScore f as = f y := le_antisymm hge hle
      have hfold : maxScore f (a :: as) = max (f a) (maxScore f as) := rfl
      dsimp
      split
      · rename_i hlt
        have hms : maxScore f (a :: as) = f y := by
          rw [hfold, hmax]
          exact max_eq_right (le_of_lt hlt)
        rw [List.find?]
        have hcond : decide (maxScore f (a :: as) ≤ f a) = false := by
          simp [hms, not_le.mpr hlt]
        rw [hcond]
        dsimp
        have hpred : (fun x => decide (maxScore f (a :: as) ≤ f x))
            = (fun x => decide (maxScore f as ≤ f x)) := by
          funext x
          rw [hms, hmax]
        rw [hpred, ← ih, hm]
      · rename_i hnlt
        have hya : f y ≤ f a := le_of_not_lt hnlt
        have hms : maxScore f (a :: as) = f a := by
          rw [hfold, hmax]
          exact max_eq_left hya
        rw [List.find?]
        have hcond : decide (maxScore f (a :: as) ≤ f a) = true := by
          simp [hms]
        rw [hcond]

theorem lookup_map_self (g : String → Nat) {l : List String} {w : String}
    (hw : w ∈ l) :
    List.lookup w (l.map (fun i => (i, g i))) = some (g w) := by
  induction l with
  | nil => cases hw
  | cons a as ih =>
    rcases List.mem_cons.mp hw with h | h
    · subst h
      simp [List.lookup]
    · by_cases hwa : w = a
      · subst hwa; simp [List.lookup]
      · have hbeq : (w == a) = false := by simpa using hwa
        simp only [List.map, List.lookup, hbeq]
        exact ih h

theorem tally_perm (rosterIds : List String) {b1 b2 : List (Option String)}
    (hp : b1.Perm b2) : tally rosterIds b1 = tally rosterIds b2 := by
  have hv : (validBallots b1).Perm (validBallots b2) := hp.filterMap id
  have hc : voteCount b1 = voteCount b2 := by
    funext oid
    exact hv.count_eq oid
  unfold tally
  rw [hc, hv.length_eq]

theorem sum_ind_eq_zero {a : String} {roster : List String} (h : a ∉ roster) :
    (roster.map (fun i => if i = a then 1 else 0)).sum = 0 := by
  induction roster with
  | nil => rfl
  | cons r rs ih =>
    simp only [List.map, List.sum_cons]
    have hra : ¬ r = a := fun he => h (he ▸ List.mem_cons_self _ _)
    rw [if_neg hra, ih (fun hm => h (List.mem_cons_of_mem _ hm))]

theorem sum_ind_eq_one {a : String} {roster : List String} (hnd : roster.Nodup)
    (ha : a ∈ roster) :
    (roster.map (fun i => if i = a then 1 else 0)).sum = 1 := by
  induction roster with
  | nil => cases ha
  | cons r rs ih =>
    rw [List.nodup_cons] at hnd
    simp only [List.map, List.sum_cons]
    rcases List.mem_cons.mp ha with he | hm
    · rw [if_pos he.symm]
      have hnot : a ∉ rs := he ▸ hnd.1
      rw [sum_ind_eq_zero hnot]
    · have hra : ¬ r = a := fun he2 => hnd.1 (he2 ▸ hm)
      rw [if_neg hra, ih hnd.2 hm]

theorem sum_counts_eq_length (l roster : List String) (hnd : roster.Nodup)
    (hmem : ∀ x ∈ l, x ∈ roster) :
    (roster.map (fun i => l.count i)).sum = l.length := by
  induction l with
  | nil => simp
  | cons a l ih =>
    have ha : a ∈ roster := hmem a (List.mem_cons_self _ _)
    have hmem2 : ∀ x ∈ l, x ∈ roster := fun x hx => hmem x (List.mem_cons_of_mem _ hx)
    have hcount : (roster.map (fun i => (a :: l).count i))
        = roster.map (fun i => l.count i + (if i = a then 1 else 0)) := by
      apply List.map_congr_left
      intro i _
      rw [List.count_cons]
      congr 1
      simp only [beq_iff_eq]
      by_cases hia : i = a
      · simp [hia]
      · simp [hia, Ne.symm hia]
    rw [hcount, List.sum_map_add, ih hmem2, sum_ind_eq_one hnd ha,
      List.length_cons]

/-- C1: for every tally with total votes positive, the winner id attains the
maximum vote count, the winning-votes figure equals both the count recorded
for the winner and the maximum over all counts, the winner is the earliest
opinion id in roster order among those attaining the maximum, and any
permutation of the ballot list (identical ballot multiset) yields the same
tally. -/
theorem tally_winner_spec (rosterIds : List String) (ballots : List (Option String))
    (hr : rosterIds ≠ []) (hv : 0 < (validBallots ballots).length) :
    ∃ t : TallyResult, tally rosterIds ballots = some t ∧
      0 < t.totalVotes ∧
      List.lookup t.winnerId t.voteCounts = some t.winningVotes ∧
      t.winningVotes = maxScore (voteCount ballots) rosterIds ∧
      (∀ p ∈ t.voteCounts, p.2 ≤ t.winningVotes) ∧
      rosterIds.find?
          (fun i => decide (maxScore (voteCount ballots) rosterIds ≤ voteCount ballots i))
        = some t.winnerId ∧
      (∀ ballots2 : List (Option String), ballots.Perm ballots2 →
        tally rosterIds ballots2 = some t) := by
  obtain ⟨w, hw⟩ : ∃ w, argmaxFirst (voteCount ballots) rosterIds = some w := by
    cases hcase : argmaxFirst (voteCount ballots) rosterIds with
    | none => exact absurd ((argmaxFirst_eq_none _ _).mp hcase) hr
    | some w => exact ⟨w, rfl⟩
  have hwmem : w ∈ rosterIds := argmaxFirst_mem _ hw
  have hfind := (argmaxFirst_eq_find (voteCount ballots) rosterIds).symm.trans hw
  have hwmax : voteCount ballots w = maxScore (voteCount ballots) rosterIds := by
    have hp := List.find?_some hfind
    have h1 : maxScore (voteCount ballots) rosterIds ≤ voteCount ballots w :=
      of_decide_eq_true hp
    exact le_antisymm (maxScore_le_of_mem _ hwmem) h1
  have htally : tally rosterIds ballots
      = some { winnerId := w
               winningVotes := voteCount ballots w
               totalVotes := (validBallots ballots).length
               voteCounts := rosterIds.map (fun i => (i, voteCount ballots i)) } := by
    unfold tally
    rw [if_neg (Nat.pos_iff_ne_zero.mp hv), hw]
  refine ⟨{ winnerId := w
            winningVotes := voteCount ballots w
            totalVotes := (validBallots ballots).length
            voteCounts := rosterIds.map (fun i => (i, voteCount ballots i)) },
      htally, hv, ?_, hwmax, ?_, hfind, ?_⟩
  · exact lookup_map_self (voteCount ballots) hwmem
  · intro p hp
    rcases List.mem_map.mp hp with ⟨i, hi, hpi⟩
    subst hpi
    show voteCount ballots i ≤ voteCount ballots w
    rw [hwmax]
    exact maxScore_le_of_mem _ hi
  · intro ballots2 hp
    rw [← tally_perm rosterIds hp]
    exact htally

/-- C1 witness: scenario 3 of the spec, four voters split two against two
between op1 (roster-earlier) and op2; the winner is op1 deterministically. -/
theorem tally_winner_spec_witness :
    ∃ t : TallyResult,
      tally ["op1", "op2"] [some "op1", some "op2", some "op1", some "op2"] = some t ∧
      0 < t.totalVotes ∧
      List.lookup t.winnerId t.voteCounts = some t.winningVotes ∧
      t.winningVotes
        = maxScore (voteCount [some "op1", some "op2", some "op1", some "op2"])
            ["op1", "op2"] ∧
      (∀ p ∈ t.voteCounts, p.2 ≤ t.winningVotes) ∧
      List.find?
          (fun i => decide
            (maxScore (voteCount [some "op1", some "op2", some "op1", some "op2"])
                ["op1", "op2"]
              ≤ voteCount [some "op1", some "op2", some "op1", some "op2"] i))
          ["op1", "op2"]
        = some t.winnerId ∧
      (∀ ballots2 : List (Option String),
        List.Perm [some "op1", some "op2", some "op1", some "op2"] ballots2 →
        tally ["op1", "op2"] ballots2 = some t) :=
  tally_winner_spec ["op1", "op2"] [some "op1", some "op2", some "op1", some "op2"]
    (by decide) (by decide)

/-- C2: for every tally result, the per-opinion vote counts sum to the total
number of votes, and the total counts exactly the non-abstaining ballots. -/
theorem tally_sum_counts (rosterIds : List String) (ballots : List (Option String))
    (t : TallyResult) (hnd : rosterIds.Nodup)
    (hmem : ∀ b ∈ ballots, ∀ c : String, b = some c → c ∈ rosterIds)
    (h : tally rosterIds ballots = some t) :
    (t.voteCounts.map Prod.snd).sum = t.totalVotes ∧
    t.totalVotes = (validBallots ballots).length := by
  have hsub : ∀ x ∈ validBallots ballots, x ∈ rosterIds := by
    intro x hx
    rcases List.mem_filterMap.mp hx with ⟨b, hb, hbx⟩
    exact hmem b hb x hbx
  unfold tally at h
  split at h
  · cases h
  · split at h
    · cases h
    · cases h
      constructor
      · show ((rosterIds.map (fun i => (i, voteCount ballots i))).map Prod.snd).sum = _
        rw [List.map_map]
        have : (Prod.snd ∘ fun i => (i, voteCount ballots i))
            = fun i => (validBallots ballots).count i := rfl
        rw [this]
        exact sum_counts_eq_length (validBallots ballots) rosterIds hnd hsub
      · rfl

/-- C2 witness: three ballots, one abstention; the counts sum to the two
valid votes. -/
theorem tally_sum_counts_witness :
    ((TallyResult.voteCounts
        ⟨"op1", 2, 2, [("op1", 2), ("op2", 0)]⟩).map Prod.snd).sum
      = (TallyResult.totalVotes ⟨"op1", 2, 2, [("op1", 2), ("op2", 0)]⟩) ∧
    (TallyResult.totalVotes ⟨"op1", 2, 2, [("op1", 2), ("op2", 0)]⟩)
      = (validBallots [some "op1", none, some "op1"]).length :=
  tally_sum_counts ["op1", "op2"] [some "op1", none, some "op1"]
    ⟨"op1", 2, 2, [("op1", 2), ("op2", 0)]⟩
    (by decide)
    (by
      intro b hb c hbc
      subst hbc
      simp only [List.mem_cons] at hb
      rcases hb with h | h | h | h
      · simp [Option.some.injEq] at h
        simp [h]
      · cases h
      · simp [Option.some.injEq] at h
        simp [h]
      · cases h)
    (by decide)

/-! ## Retry wrapper (modelled from the spec, section 4.1) -/

/-- Modelled from the spec: the bounded-retry loop of the Participant Pool.
The function attempt gives the outcome of each successive underlying
generator attempt (none is a failure); the loop runs attempts from index
start while fuel remains, returning the first success. -/
def attemptLoop (attempt : Nat → Option String) : Nat → Nat → Option String
  | _, 0 => none
  | k, fuel + 1 =>
    match attempt k with
    | some s => some s
    | none => attemptLoop attempt (k + 1) fuel

/-- Modelled from the spec: the retry wrapper of the Participant Pool.  A
call is attempted once and retried up to maxRetries times; exhausting the
budget yields none, standing for ProviderError and exclusion of the
participant for that call. -/
def invokeWithRetry (attempt : Nat → Option String) (maxRetries : Nat) :
    Option String :=
  attemptLoop attempt 0 (maxRetries + 1)

theorem attemptLoop_success (attempt : Nat → Option String) (s : String) :
    ∀ fuel j start : Nat, j < fuel →
      (∀ i, i < j → attempt (start + i) = none) →
      attempt (start + j) = some s →
      attemptLoop attempt start fuel = some s := by
  intro fuel
  induction fuel with
  | zero => intro j start hj; exact absurd hj (Nat.not_lt_zero j)
  | succ n ih =>
    intro j start hj hfail hsucc
    cases j with
    | zero =>
      simp only [attemptLoop]
      rw [Nat.add_zero] at hsucc
      rw [hsucc]
    | succ m =>
      simp only [attemptLoop]
      have h0 : attempt start = none := by
        have := hfail 0 (Nat.succ_pos m)
        rwa [Nat.add_zero] at this
      rw [h0]
      show attemptLoop attempt (start + 1) n = some s
      apply ih m (start + 1) (Nat.lt_of_succ_lt_succ hj)
      · intro i hi
        have := hfail (i + 1) (Nat.succ_lt_succ hi)
        rwa [show start + (i + 1) = start + 1 + i by omega] at this
      · rwa [show start + (m + 1) = start + 1 + m by omega] at hsucc

theorem attemptLoop_fail (attempt : Nat → Option String) :
    ∀ fuel start : Nat,
      (∀ i, i < fuel → attempt (start + i) = none) →
      attemptLoop attempt start fuel = none := by
  intro fuel
  induction fuel with
  | zero => intro start _; rfl
  | succ n ih =>
    intro start hfail
    simp only [attemptLoop]
    have h0 : attempt start = none := by
      have := hfail 0 (Nat.succ_pos n)
      rwa [Nat.add_zero] at this
    rw [h0]
    show attemptLoop attempt (start + 1) n = none
    apply ih
    intro i hi
    have := hfail (i + 1) (Nat.succ_lt_succ hi)
    rwa [show start + (i + 1) = start + 1 + i by omega] at this

/-- C4: a generator failing exactly k times with k below maxRetries and then
succeeding makes the wrapped call succeed with that result; a generator
failing on all maxRetries plus one attempts makes the wrapped call yield the
ProviderError outcome (none); the two outcomes are mutually exclusive. -/
theorem retry_wrapper_spec (attempt : Nat → Option String) (maxRetries k : Nat)
    (s : String) :
    ((∀ i, i < k → attempt i = none) → attempt k = some s → k < maxRetries →
      invokeWithRetry attempt maxRetries = some s) ∧
    ((∀ i, i ≤ maxRetries → attempt i = none) →
      invokeWithRetry attempt maxRetries = none) ∧
    ¬(invokeWithRetry attempt maxRetries = some s ∧
      invokeWithRetry attempt maxRetries = none) := by
  refine ⟨?_, ?_, ?_⟩
  · intro hfail hsucc hk
    unfold invokeWithRetry
    apply attemptLoop_success attempt s (maxRetries + 1) k 0 (Nat.lt_succ_of_lt hk)
    · intro i hi
      simpa using hfail i hi
    · simpa using hsucc
  · intro hfail
    unfold invokeWithRetry
    apply attemptLoop_fail
    intro i hi
    simpa using hfail i (Nat.lt_succ_iff.mp hi)
  · rintro ⟨h1, h2⟩
    rw [h1] at h2
    cases h2

/-- C4 witness: with maxRetries 3, an attempt sequence failing twice then
succeeding yields the success, and an always-failing sequence yields the
ProviderError outcome. -/
theorem retry_wrapper_spec_witness :
    invokeWithRetry (fun i => if i < 2 then none else some "ok") 3 = some "ok" ∧
    invokeWithRetry (fun _ => none) 3 = none :=
  ⟨(retry_wrapper_spec (fun i => if i < 2 then none else some "ok") 3 2 "ok").1
      (by decide) (by decide) (by decide),
    (retry_wrapper_spec (fun _ => none) 3 0 "x").2.1 (fun i _ => rfl)⟩

/-! ## Deliberation pipeline (modelled from the spec, sections 4.2-4.6) -/

/-- Character-list prefix test, used for the lenient substring match of the
vote parser. -/
def isPrefixList : List Char → List Char → Bool
  | [], _ => true
  | _ :: _, [] => false
  | a :: as, b :: bs => a = b && isPrefixList as bs

/-- Character-list infix test. -/
def isInfixList (pat : List Char) : List Char → Bool
  | [] => pat.isEmpty
  | b :: bs => isPrefixList pat (b :: bs) || isInfixList pat bs

/-- Substring test on strings. -/
def containsSubstr (s pat : String) : Bool :=
  isInfixList pat.data s.data

/-- Modelled from the spec: the pure free-text vote parser of the Voting
Stage.  An exact id match wins; otherwise, if the response contains exactly
one recognizable candidate id, that id is accepted; otherwise the ballot is
an abstention (none). -/
def opinionIdFromResponse (candidateIds : List String) (text : String) :
    Option String :=
  if candidateIds.contains text then some text
  else
    match candidateIds.filter (fun cid => containsSubstr text cid) with
    | [c] => some c
    | _ => none

/-- Modelled from the spec: a participant of the Participant Pool, an
immutable pair of a stable id and a generator.  The generator is modelled
after timeout and retry wrapping: none is a ProviderError for that call. -/
structure Participant where
  id : String
  gen : String → Option String

/-- Modelled from the spec: per-participant deliberation state, holding the
participant, its anonymous opinion id, its current opinion content and
whether it is still active for discussion rounds. -/
structure Entry where
  part : Participant
  oid : String
  content : String
  active : Bool

/-- Modelled from the spec: the identical prompt the Opinion Stage sends to
every participant (the exact prompt text is outside the deliberation
contract; the model passes the query through). -/
def opinionPrompt (query : String) : String :=
  query

/-- Modelled from the spec: the revision prompt of the Discussion Stage,
embedding every current opinion labeled by its anonymous opinion id, never
by participant identity. -/
def revisionPrompt (query : String) (current : List (String × String)) : String :=
  query ++ String.join (current.map (fun oc => " [" ++ oc.1 ++ "] " ++ oc.2))

/-- Modelled from the spec: the ballot prompt of the Voting Stage, listing
all final opinions by anonymous id. -/
def votePrompt (finals : List (String × String)) : String :=
  String.join (finals.map (fun oc => " [" ++ oc.1 ++ "] " ++ oc.2))

/-- Modelled from the spec: the Opinion Stage.  Every participant is asked
for an initial opinion; each succeeds independently or is excluded going
forward; result order is roster order.  The second component logs every
generator call as a pair of participant id and prompt. -/
def opinionStage : List Participant → String →
    List (Participant × String) × List (String × String)
  | [], _ => ([], [])
  | p :: ps, query =>
    let rest := opinionStage ps query
    match p.gen (opinionPrompt query) with
    | some c => ((p, c) :: rest.1, (p.id, opinionPrompt query) :: rest.2)
    | none => (rest.1, (p.id, opinionPrompt query) :: rest.2)

/-- Modelled from the spec: anonymous opinion ids are assigned in roster
order to the Opinion Stage survivors. -/
def initEntries (ops : List (Participant × String)) : List Entry :=
  ops.enum.map (fun ne => ⟨ne.2.1, "op" ++ toString (ne.1 + 1), ne.2.2, true⟩)

/-- Modelled from the spec: the current opinion set of a discussion round,
the latest surviving opinion per active participant. -/
def currentOpinions (st : List Entry) : List (String × String) :=
  (st.filter (fun e => e.active)).map (fun e => (e.oid, e.content))

/-- Modelled from the spec: one discussion round.  Every active participant
revises its opinion after seeing all current opinions; a failed revision
marks the participant inactive but keeps its last successful opinion
eligible through voting.  Inactive participants are not called. -/
def reviseEntries (query : String) (cur : List (String × String)) :
    List Entry → List Entry × List (String × String)
  | [] => ([], [])
  | e :: es =>
    let rest := reviseEntries query cur es
    if e.active then
      match e.part.gen (revisionPrompt query cur) with
      | some c =>
        ({ e with content := c } :: rest.1,
          (e.part.id, revisionPrompt query cur) :: rest.2)
      | none =>
        ({ e with active := false } :: rest.1,
          (e.part.id, revisionPrompt query cur) :: rest.2)
    else (e :: rest.1, rest.2)

/-- Modelled from the spec: the Discussion Stage runs the configured number
of strictly sequential rounds; when fewer than two participants remain
active, discussion is skipped for the remaining rounds. -/
def discussionStage (query : String) : Nat → List Entry →
    List Entry × List (String × String)
  | 0, st => (st, [])
  | n + 1, st =>
    if (st.filter (fun e => e.active)).length < 2 then (st, [])
    else
      let r1 := reviseEntries query (currentOpinions st) st
      let r2 := discussionStage query n r1.1
      (r2.1, r1.2 ++ r2.2)

/-- Modelled from the spec: a ballot, the voter id together with the chosen
opinion id, or none for an abstention. -/
structure Ballot where
  voterId : String
  chosen : Option String

/-- Modelled from the spec: the final opinion per still-eligible
participant, keyed by anonymous opinion id. -/
def finalsOfEntries (st : List Entry) : List (String × String) :=
  st.map (fun e => (e.oid, e.content))

/-- Modelled from the spec: one voter of the Voting Stage.  The reply is
parsed leniently; a failed call or an unparseable reply is an abstention. -/
def voteLoop (finals : List (String × String)) :
    List Entry → List Ballot × List (String × String)
  | [] => ([], [])
  | e :: es =>
    let rest := voteLoop finals es
    match e.part.gen (votePrompt finals) with
    | some text =>
      (⟨e.part.id, opinionIdFromResponse (finals.map Prod.fst) text⟩ :: rest.1,
        (e.part.id, votePrompt finals) :: rest.2)
    | none =>
      (⟨e.part.id, none⟩ :: rest.1,
        (e.part.id, votePrompt finals) :: rest.2)

/-- Modelled from the spec: the Voting Stage.  Every eligible participant is
asked to pick the best final opinion id from the surviving set. -/
def votingStage (st : List Entry) : List Ballot × List (String × String) :=
  voteLoop (finalsOfEntries st) st

/-- Modelled from the spec: the Tally Engine with the NoConsensus fallback
of the Controller: when every ballot abstains, the winner falls back to the
first opinion in roster order. -/
def tallyOrFallback (candidateIds : List String) (choices : List (Option String)) :
    Option TallyResult :=
  match tally candidateIds choices with
  | some t => some t
  | none =>
    match candidateIds with
    | [] => none
    | c :: _ =>
      some { winnerId := c
             winningVotes := voteCount choices c
             totalVotes := (validBallots choices).length
             voteCounts := candidateIds.map (fun i => (i, voteCount choices i)) }

/-- Modelled from the spec: one initial-opinion record of the exposed result
shape. -/
structure OpinionRecord where
  model : String
  content : String
deriving Repr, DecidableEq

/-- Modelled from the spec: one ballot record of the exposed result shape. -/
structure VoteRecord where
  model : String
  chosen_id : Option String
deriving Repr, DecidableEq

/-- Modelled from the spec: the results block of the exposed result shape. -/
structure ResultsBlock where
  total_votes : Nat
  winner_id : String
  winning_votes : Nat
  vote_counts : List (String × Nat)
deriving Repr, DecidableEq

/-- Modelled from the spec: the exposed deliberation result shape consumed
by the CLI and GUI callers. -/
structure DeliberationResult where
  initial_opinions : List OpinionRecord
  votes : List VoteRecord
  results : ResultsBlock
  final_output : String
deriving Repr, DecidableEq

/-- Modelled from the spec: the fatal error taxonomy of the Controller. -/
inductive DelibError
  | configurationError
  | noParticipantsAvailable
deriving Repr, DecidableEq

/-- Modelled from the spec: the final opinion set a deliberation reaches
after the Opinion and Discussion stages. -/
def delibFinals (roster : List Participant) (query : String) (rounds : Nat) :
    List (String × String) :=
  finalsOfEntries
    (discussionStage query rounds (initEntries (opinionStage roster query).1)).1

/-- Modelled from the spec: the Deliberation Controller.  Rejects an empty
roster with ConfigurationError before any generator call; runs the Opinion,
Discussion, Voting and Tally stages; assembles the exposed result with
final output equal to the winning opinion content.  The second component
logs every generator call made. -/
def deliberate (roster : List Participant) (query : String) (rounds : Nat) :
    Except DelibError DeliberationResult × List (String × String) :=
  match roster with
  | [] => (Except.error DelibError.configurationError, [])
  | _ :: _ =>
    let ops := opinionStage roster query
    match ops.1 with
    | [] => (Except.error DelibError.noParticipantsAvailable, ops.2)
    | _ :: _ =>
      let disc := discussionStage query rounds (initEntries ops.1)
      let voting := votingStage disc.1
      let finals := finalsOfEntries disc.1
      match tallyOrFallback (finals.map Prod.fst) (voting.1.map (fun b => b.chosen)) with
      | none => (Except.error DelibError.noParticipantsAvailable, ops.2 ++ disc.2 ++ voting.2)
      | some t =>
        (Except.ok
          { initial_opinions := ops.1.map (fun pc => ⟨pc.1.id, pc.2⟩)
            votes := voting.1.map (fun b => ⟨b.voterId, b.chosen⟩)
            results := ⟨t.totalVotes, t.winnerId, t.winningVotes, t.voteCounts⟩
            final_output := ((finals.lookup t.winnerId).getD "") },
          ops.2 ++ disc.2 ++ voting.2)

theorem tally_winner_mem {cids : List String} {choices : List (Option String)}
    {t : TallyResult} (h : tally cids choices = some t) : t.winnerId ∈ cids := by
  unfold tally at h
  split at h
  · cases h
  · split at h
    · cases h
    · rename_i w hw
      cases h
      exact argmaxFirst_mem _ hw

theorem tallyOrFallback_winner_mem {cids : List String}
    {choices : List (Option String)} {t : TallyResult}
    (h : tallyOrFallback cids choices = some t) : t.winnerId ∈ cids := by
  unfold tallyOrFallback at h
  split at h
  · rename_i t2 ht2
    cases h
    exact tally_winner_mem ht2
  · split at h
    · cases h
    · cases h
      exact List.mem_cons_self _ _

theorem lookup_isSome_of_mem_keys {l : List (String × String)} {a : String}
    (h : a ∈ l.map Prod.fst) : ∃ v, List.lookup a l = some v := by
  induction l with
  | nil => cases h
  | cons p ps ih =>
    obtain ⟨k, v⟩ := p
    simp only [List.map_cons, List.mem_cons] at h
    by_cases hak : a = k
    · have hbeq : (a == k) = true := by simp [hak]
      exact ⟨v, by simp [List.lookup, hbeq]⟩
    · have hmem : a ∈ ps.map Prod.fst := by
        rcases h with h | h
        · exact absurd h hak
        · exact h
      have hbeq : (a == k) = false := by simp [hak]
      obtain ⟨v2, hv2⟩ := ih hmem
      exact ⟨v2, by simp [List.lookup, hbeq, hv2]⟩

/-- C3: deliberating over an empty participant roster fails with
ConfigurationError and produces an empty generator-call log: the failure
happens before any backend is invoked. -/
theorem deliberate_empty_roster (query : String) (rounds : Nat) :
    deliberate [] query rounds
      = (Except.error DelibError.configurationError, []) :=
  rfl

/-- C5: every result deliberate returns has the exposed layout: the ordered
initial-opinion records come from the Opinion Stage in roster order, the
ordered ballot records come from the Voting Stage, the results block is the
tally of those ballots, and final_output is the content recorded for
winner_id among the final opinions. -/
theorem deliberate_result_shape (roster : List Participant) (query : String)
    (rounds : Nat) (r : DeliberationResult) (log : List (String × String))
    (h : deliberate roster query rounds = (Except.ok r, log)) :
    r.initial_opinions
      = (opinionStage roster query).1.map (fun pc => ⟨pc.1.id, pc.2⟩) ∧
    r.votes
      = (votingStage (discussionStage query rounds
          (initEntries (opinionStage roster query).1)).1).1.map
          (fun b => ⟨b.voterId, b.chosen⟩) ∧
    (∃ t : TallyResult,
      tallyOrFallback ((delibFinals roster query rounds).map Prod.fst)
          ((votingStage (discussionStage query rounds
            (initEntries (opinionStage roster query).1)).1).1.map
            (fun b => b.chosen))
        = some t ∧
      r.results = ⟨t.totalVotes, t.winnerId, t.winningVotes, t.voteCounts⟩) ∧
    List.lookup r.results.winner_id (delibFinals roster query rounds)
      = some r.final_output := by
  cases roster with
  | nil => simp [deliberate] at h
  | cons p ps =>
    simp only [deliberate] at h
    split at h
    · simp at h
    · split at h
      · simp at h
      · rename_i t ht
        rw [Prod.mk.injEq] at h
        obtain ⟨hr, hlog⟩ := h
        rw [Except.ok.injEq] at hr
        subst hr
        refine ⟨?_, ?_, ⟨t, ?_, rfl⟩, ?_⟩
        · rfl
        · rfl
        · exact ht
        · have hmem : t.winnerId ∈ (delibFinals (p :: ps) query rounds).map Prod.fst :=
            tallyOrFallback_winner_mem ht
          obtain ⟨v, hv⟩ := lookup_isSome_of_mem_keys hmem
          show List.lookup t.winnerId (delibFinals (p :: ps) query rounds)
            = some ((List.lookup t.winnerId (delibFinals (p :: ps) query rounds)).getD "")
          rw [hv]
          rfl

/-- C5 witness: two healthy participants, zero discussion rounds, both vote
for the first opinion; the returned result has the exposed layout and the
final output is the winning opinion content. -/
theorem deliberate_result_shape_witness :
    (DeliberationResult.initial_opinions
        ⟨[⟨"m1", "op1"⟩, ⟨"m2", "op1"⟩],
          [⟨"m1", some "op1"⟩, ⟨"m2", some "op1"⟩],
          ⟨2, "op1", 2, [("op1", 2), ("op2", 0)]⟩, "op1"⟩)
      = (opinionStage [⟨"m1", fun _ => some "op1"⟩, ⟨"m2", fun _ => some "op1"⟩]
          "q").1.map (fun pc => ⟨pc.1.id, pc.2⟩) ∧
    (DeliberationResult.votes
        ⟨[⟨"m1", "op1"⟩, ⟨"m2", "op1"⟩],
          [⟨"m1", some "op1"⟩, ⟨"m2", some "op1"⟩],
          ⟨2, "op1", 2, [("op1", 2), ("op2", 0)]⟩, "op1"⟩)
      = (votingStage (discussionStage "q" 0
          (initEntries (opinionStage
            [⟨"m1", fun _ => some "op1"⟩, ⟨"m2", fun _ => some "op1"⟩]
            "q").1)).1).1.map (fun b => ⟨b.voterId, b.chosen⟩) ∧
    (∃ t : TallyResult,
      tallyOrFallback
          ((delibFinals [⟨"m1", fun _ => some "op1"⟩, ⟨"m2", fun _ => some "op1"⟩]
            "q" 0).map Prod.fst)
          ((votingStage (discussionStage "q" 0
            (initEntries (opinionStage
              [⟨"m1", fun _ => some "op1"⟩, ⟨"m2", fun _ => some "op1"⟩]
              "q").1)).1).1.map (fun b => b.chosen))
        = some t ∧
      (DeliberationResult.results
          ⟨[⟨"m1", "op1"⟩, ⟨"m2", "op1"⟩],
            [⟨"m1", some "op1"⟩, ⟨"m2", some "op1"⟩],
            ⟨2, "op1", 2, [("op1", 2), ("op2", 0)]⟩, "op1"⟩)
        = ⟨t.totalVotes, t.winnerId, t.winningVotes, t.voteCounts⟩) ∧
    List.lookup
        (ResultsBlock.winner_id
          (DeliberationResult.results
            ⟨[⟨"m1", "op1"⟩, ⟨"m2", "op1"⟩],
              [⟨"m1", some "op1"⟩, ⟨"m2", some "op1"⟩],
              ⟨2, "op1", 2, [("op1", 2), ("op2", 0)]⟩, "op1"⟩))
        (delibFinals [⟨"m1", fun _ => some "op1"⟩, ⟨"m2", fun _ => some "op1"⟩]
          "q" 0)
      = some (DeliberationResult.final_output
          ⟨[⟨"m1", "op1"⟩, ⟨"m2", "op1"⟩],
            [⟨"m1", some "op1"⟩, ⟨"m2", some "op1"⟩],
            ⟨2, "op1", 2, [("op1", 2), ("op2", 0)]⟩, "op1"⟩) :=
  deliberate_result_shape
    [⟨"m1", fun _ => some "op1"⟩, ⟨"m2", fun _ => some "op1"⟩] "q" 0
    ⟨[⟨"m1", "op1"⟩, ⟨"m2", "op1"⟩],
      [⟨"m1", some "op1"⟩, ⟨"m2", some "op1"⟩],
      ⟨2, "op1", 2, [("op1", 2), ("op2", 0)]⟩, "op1"⟩
    [("m1", "q"), ("m2", "q"),
      ("m1", " [op1] op1 [op2] op1"), ("m2", " [op1] op1 [op2] op1")]
    (by rfl)

/-! ## Backend wrappers, embedded from src/council/models.py -/

/-- Python truthiness of an optional string: None and the empty string are
falsy.  Used for the `if system_prompt:` checks of models.py. -/
def pyTruthy (s : Option String) : Bool :=
  match s with
  | none => false
  | some t => !t.isEmpty

/-- One chat message as built by the generate methods of models.py. -/
structure ChatMsg where
  role : String
  content : String
deriving Repr, DecidableEq

/-- The message list built by OllamaModel.generate, GroqModel.generate and
TogetherModel.generate: an optional system message followed by the user
prompt. -/
def buildMessages (prompt : String) (sys : Option String) : List ChatMsg :=
  (if pyTruthy sys then [⟨"system", sys.getD ""⟩] else []) ++ [⟨"user", prompt⟩]

/-- Outcome of a backend generate call: generated text, or the provider
error raised by the closing except clause of each generate method, carrying
the backend and model identification baked into its message. -/
inductive GenResult
  | ok (text : String)
  | providerError (backend : String) (message : String)
deriving Repr, DecidableEq

/-- OllamaModel.generate (models.py lines 34-69).  The chat oracle stands
for self.client.chat followed by the response dictionary accesses; an error
value is an exception.  On failure with a name not containing the latest
tag, the call is retried once with the latest tag appended; any remaining
failure re-raises the original error, wrapped by the outer except clause. -/
def ollamaGenerate (name : String)
    (chat : String → List ChatMsg → Except String String)
    (prompt : String) (sys : Option String) : GenResult :=
  let messages := buildMessages prompt sys
  match chat name messages with
  | Except.ok content => GenResult.ok content
  | Except.error e =>
    let second :=
      if !containsSubstr name ":latest" then
        match chat (name ++ ":latest") messages with
        | Except.ok content => some content
        | Except.error _ => none
      else none
    match second with
    | some content => GenResult.ok content
    | none =>
      GenResult.providerError ("Ollama " ++ name)
        ("Error generating response from Ollama " ++ name ++ ": " ++ e ++
          ". Make sure the model is installed: ollama pull " ++ name)

/-- GroqModel.generate (models.py lines 80-95).  The complete oracle stands
for self.client.chat.completions.create followed by the response field
accesses, all inside the try block. -/
def groqGenerate (name : String)
    (complete : String → List ChatMsg → Except String String)
    (prompt : String) (sys : Option String) : GenResult :=
  match complete name (buildMessages prompt sys) with
  | Except.ok content => GenResult.ok content
  | Except.error e =>
    GenResult.providerError ("Groq " ++ name)
      ("Error generating response from Groq " ++ name ++ ": " ++ e)

/-- The request headers built by HuggingFaceModel.generate: the
Authorization header is added only when the stored api key is truthy. -/
def hfHeaders (apiKey : String) : List (String × String) :=
  if apiKey.isEmpty then [] else [("Authorization", "Bearer " ++ apiKey)]

/-- The JSON value HuggingFaceModel.generate distinguishes: a non-empty
list, whose first item carries an optional generated_text field and a str
rendering, or any other JSON value with its str rendering. -/
inductive HFJson
  | nonemptyList (firstGenerated : Option String) (firstStr : String)
  | otherJson (strRepr : String)
deriving Repr, DecidableEq

/-- The api url built by HuggingFaceModel for a model name. -/
def hfApiUrl (name : String) : String :=
  "https://api-inference.huggingface.co/models/" ++ name

/-- HuggingFaceModel.generate (models.py lines 105-132).  The post oracle
stands for requests.post plus raise_for_status and json decoding, taking
the url, the headers, the payload inputs text and the hardcoded timeout of
30 seconds; an error value is an exception. -/
def hfGenerate (name apiKey : String)
    (post : String → List (String × String) → String → Nat → Except String HFJson)
    (prompt : String) (sys : Option String) : GenResult :=
  let fullPrompt :=
    if pyTruthy sys then sys.getD "" ++ "\n\n" ++ prompt else prompt
  match post (hfApiUrl name) (hfHeaders apiKey) fullPrompt 30 with
  | Except.ok j =>
    match j with
    | HFJson.nonemptyList gt fs => GenResult.ok (gt.getD fs)
    | HFJson.otherJson s => GenResult.ok s
  | Except.error e =>
    GenResult.providerError ("HuggingFace " ++ name)
      ("Error generating response from HuggingFace " ++ name ++ ": " ++ e)

/-! ## Model construction, embedded from src/council/models.py -/

/-- The Python error values raised by model construction in models.py. -/
inductive PyError
  | notImplementedError (message : String)
  | valueError (message : String)
  | exception (message : String)
deriving Repr, DecidableEq

/-- A successfully constructed model wrapper. -/
inductive ModelHandle
  | ollama (name baseUrl : String)
  | groq (name apiKey : String)
  | huggingface (name apiKey : String)
  | together (name apiKey : String)
  | cohereHandle (name apiKey : String)
deriving Repr, DecidableEq

/-- OllamaModel constructor (models.py lines 24-32): connects to the server
and lists models; a connection failure raises a generic exception.  The
ping oracle stands for ollama.Client plus client.list. -/
def OllamaModel_init (name baseUrl : String) (ping : String → Except String Unit) :
    Except PyError ModelHandle :=
  match ping baseUrl with
  | Except.ok _ => Except.ok (ModelHandle.ollama name baseUrl)
  | Except.error e =>
    Except.error (PyError.exception
      ("Cannot connect to Ollama at " ++ baseUrl ++
        ". Make sure Ollama is running. Error: " ++ e))

/-- GroqModel constructor (models.py lines 74-78): rejects a falsy api
key. -/
def GroqModel_init (name apiKey : String) : Except PyError ModelHandle :=
  if apiKey.isEmpty then Except.error (PyError.valueError "Groq API key is required")
  else Except.ok (ModelHandle.groq name apiKey)

/-- HuggingFaceModel constructor (models.py lines 100-103): stores the api
key, empty or not, and always succeeds. -/
def HuggingFaceModel_init (name apiKey : String) : Except PyError ModelHandle :=
  Except.ok (ModelHandle.huggingface name apiKey)

/-- The message of the NotImplementedError raised by the GoogleModel
constructor. -/
def googleInitMsg : String :=
  "Google Gemini support is deprecated. The google.generativeai package is no longer maintained. Please use google.genai instead or use other model providers."

/-- GoogleModel constructor (models.py lines 137-142): raises
NotImplementedError immediately after storing the name, before the api key
is ever read. -/
def GoogleModel_init (_name _apiKey : String) : Except PyError ModelHandle :=
  Except.error (PyError.notImplementedError googleInitMsg)

/-- TogetherModel constructor (models.py lines 197-201): rejects a falsy
api key. -/
def TogetherModel_init (name apiKey : String) : Except PyError ModelHandle :=
  if apiKey.isEmpty then Except.error (PyError.valueError "Together API key is required")
  else Except.ok (ModelHandle.together name apiKey)

/-- CohereModel constructor (models.py lines 223-227): rejects a falsy api
key. -/
def CohereModel_init (name apiKey : String) : Except PyError ModelHandle :=
  if apiKey.isEmpty then Except.error (PyError.valueError "Cohere API key is required")
  else Except.ok (ModelHandle.cohereHandle name apiKey)

/-- One entry of the MODELS configuration list: provider, model name and
the optional api key and base url entries of the dictionary. -/
structure ModelConfig where
  provider : String
  name : String
  apiKey : Option String
  baseUrl : Option String
deriving Repr, DecidableEq

/-- create_model (models.py lines 243-270): the factory keyed by provider
name.  Missing dictionary entries default to the empty string, or to the
local base url for ollama. -/
def create_model (ping : String → Except String Unit) (cfg : ModelConfig) :
    Except PyError ModelHandle :=
  if cfg.provider = "ollama" then
    OllamaModel_init cfg.name (cfg.baseUrl.getD "http://localhost:11434") ping
  else if cfg.provider = "groq" then
    GroqModel_init cfg.name (cfg.apiKey.getD "")
  else if cfg.provider = "huggingface" then
    HuggingFaceModel_init cfg.name (cfg.apiKey.getD "")
  else if cfg.provider = "google" then
    GoogleModel_init cfg.name (cfg.apiKey.getD "")
  else if cfg.provider = "together" then
    TogetherModel_init cfg.name (cfg.apiKey.getD "")
  else if cfg.provider = "cohere" then
    CohereModel_init cfg.name (cfg.apiKey.getD "")
  else
    Except.error (PyError.valueError ("Unknown provider: " ++ cfg.provider))

/-! ## Configuration, embedded from src/config.py -/

/-- Decimal digit accumulation for the int() model. -/
def parseNatAux : List Char → Nat → Option Nat
  | [], acc => some acc
  | c :: cs, acc =>
    if c.isDigit then parseNatAux cs (acc * 10 + (c.toNat - 48))
    else none

/-- Python int() applied to an environment string, on the decimal forms the
configuration uses: an optional leading minus sign followed by digits; none
is the ValueError int raises on anything else.  Less common accepted Python
forms (surrounding whitespace, a plus sign, underscore separators) are not
modelled. -/
def pyInt (s : String) : Option Int :=
  match s.data with
  | [] => none
  | c :: cs =>
    if c = '-' then
      match cs with
      | [] => none
      | _ :: _ => (parseNatAux cs 0).map (fun n => -(n : Int))
    else (parseNatAux (c :: cs) 0).map (fun n => (n : Int))

/-- config.py line 14: the discussion-round count is read from the
COUNCIL_DISCUSSION_ROUNDS environment variable with default string 2 and
parsed by int(). -/
def DISCUSSION_ROUNDS (env : String → Option String) : Option Int :=
  pyInt ((env "COUNCIL_DISCUSSION_ROUNDS").getD "2")

/-- config.py line 19: the model timeout is read from the MODEL_TIMEOUT
environment variable with default string 60 and parsed by int(). -/
def MODEL_TIMEOUT (env : String → Option String) : Option Int :=
  pyInt ((env "MODEL_TIMEOUT").getD "60")

/-- config.py line 20: the retry bound is read from the MAX_RETRIES
environment variable with default string 3 and parsed by int(). -/
def MAX_RETRIES (env : String → Option String) : Option Int :=
  pyInt ((env "MAX_RETRIES").getD "3")

/-- C6: each configured backend generate call either returns generated text
or fails with the provider error identifying the failing backend; no other
outcome is possible, whatever the underlying client does. -/
theorem generate_total (name apiKey prompt : String) (sys : Option String)
    (chat : String → List ChatMsg → Except String String)
    (complete : String → List ChatMsg → Except String String)
    (post : String → List (String × String) → String → Nat → Except String HFJson) :
    ((∃ t, ollamaGenerate name chat prompt sys = GenResult.ok t) ∨
      (∃ m, ollamaGenerate name chat prompt sys
        = GenResult.providerError ("Ollama " ++ name) m)) ∧
    ((∃ t, groqGenerate name complete prompt sys = GenResult.ok t) ∨
      (∃ m, groqGenerate name complete prompt sys
        = GenResult.providerError ("Groq " ++ name) m)) ∧
    ((∃ t, hfGenerate name apiKey post prompt sys = GenResult.ok t) ∨
      (∃ m, hfGenerate name apiKey post prompt sys
        = GenResult.providerError ("HuggingFace " ++ name) m)) := by
  refine ⟨?_, ?_, ?_⟩
  · unfold ollamaGenerate
    dsimp only
    cases h1 : chat name (buildMessages prompt sys) with
    | ok c => exact Or.inl ⟨c, rfl⟩
    | error e =>
      cases h2 : (if !containsSubstr name ":latest" then
          match chat (name ++ ":latest") (buildMessages prompt sys) with
          | Except.ok content => some content
          | Except.error _ => none
        else none) with
      | some c => exact Or.inl ⟨c, rfl⟩
      | none => exact Or.inr ⟨_, rfl⟩
  · unfold groqGenerate
    cases h1 : complete name (buildMessages prompt sys) with
    | ok c => exact Or.inl ⟨c, rfl⟩
    | error e => exact Or.inr ⟨_, rfl⟩
  · unfold hfGenerate
    dsimp only
    cases h1 : post (hfApiUrl name) (hfHeaders apiKey)
        (if pyTruthy sys then sys.getD "" ++ "\n\n" ++ prompt else prompt) 30 with
    | ok j =>
      cases j with
      | nonemptyList gt fs => exact Or.inl ⟨gt.getD fs, rfl⟩
      | otherJson s => exact Or.inl ⟨s, rfl⟩
    | error e => exact Or.inr ⟨_, rfl⟩

/-- C7 counterexample: with the default environment the configured timeout
is 60 seconds, yet a HuggingFace generate call hands the request the
hardcoded timeout 30 (surfaced here through an oracle that reports the
timeout it received), so the timeout applied to a call is not the same
configured value across backends. -/
theorem timeout_not_uniform_counterexample :
    MODEL_TIMEOUT (fun _ => none) = some 60 ∧
    hfGenerate "m" "" (fun _ _ _ t => Except.error (toString t)) "p" none
      = GenResult.providerError "HuggingFace m"
          "Error generating response from HuggingFace m: 30" := by
  exact ⟨rfl, rfl⟩

/-- C7 amended: HuggingFace requests carry the hardcoded per-request timeout
30 regardless of the configured MODEL_TIMEOUT, whose default is 60: the
generate result depends on the post oracle only at timeout 30, and the
Ollama and Groq call oracles receive no timeout argument at all. -/
theorem hf_timeout_hardcoded (name apiKey prompt : String) (sys : Option String)
    (post1 post2 : String → List (String × String) → String → Nat → Except String HFJson)
    (h : ∀ url hs body, post1 url hs body 30 = post2 url hs body 30) :
    hfGenerate name apiKey post1 prompt sys
      = hfGenerate name apiKey post2 prompt sys ∧
    MODEL_TIMEOUT (fun _ => none) = some 60 := by
  refine ⟨?_, rfl⟩
  unfold hfGenerate
  dsimp only
  rw [h]

/-- C7 amended witness: two post oracles that agree only at timeout 30 give
identical HuggingFace generate results, with the configured default at
60. -/
theorem hf_timeout_hardcoded_witness :
    hfGenerate "m" "" (fun _ _ _ t => Except.error (toString t)) "p" none
      = hfGenerate "m" ""
          (fun _ _ _ t => if t = 30 then Except.error "30"
            else Except.ok (HFJson.otherJson "other"))
          "p" none ∧
    MODEL_TIMEOUT (fun _ => none) = some 60 :=
  hf_timeout_hardcoded "m" "" "p" none
    (fun _ _ _ t => Except.error (toString t))
    (fun _ _ _ t => if t = 30 then Except.error "30"
      else Except.ok (HFJson.otherJson "other"))
    (by intro u v w; rfl)

/-- C8 counterexample: supplying COUNCIL_DISCUSSION_ROUNDS equal to -3 makes
the parsed discussion-round count -3, an accepted value below 0: the claim
that the consumed value is at least 0 fails on the code, which applies no
lower bound. -/
theorem discussion_rounds_counterexample :
    DISCUSSION_ROUNDS
        (fun v => if v = "COUNCIL_DISCUSSION_ROUNDS" then some "-3" else none)
      = some (-3) ∧ (-3 : Int) < 0 := by
  exact ⟨by decide, by decide⟩

/-- C8 amended: discussionRounds is an integer defaulting to 2 when the
environment does not supply COUNCIL_DISCUSSION_ROUNDS, but no lower bound
is enforced: whatever integer the environment string parses to, negative
values included, is accepted unchanged. -/
theorem discussion_rounds_amended (env : String → Option String) (s : String)
    (n : Int) (henv : env "COUNCIL_DISCUSSION_ROUNDS" = some s)
    (hs : pyInt s = some n) :
    DISCUSSION_ROUNDS env = some n ∧
    DISCUSSION_ROUNDS (fun _ => none) = some 2 := by
  constructor
  · unfold DISCUSSION_ROUNDS
    rw [henv]
    exact hs
  · rfl

/-- C8 amended witness: an environment carrying -3 parses to -3, and the
empty environment yields the default 2. -/
theorem discussion_rounds_amended_witness :
    DISCUSSION_ROUNDS
        (fun v => if v = "COUNCIL_DISCUSSION_ROUNDS" then some "-3" else none)
      = some (-3) ∧
    DISCUSSION_ROUNDS (fun _ => none) = some 2 :=
  discussion_rounds_amended
    (fun v => if v = "COUNCIL_DISCUSSION_ROUNDS" then some "-3" else none)
    "-3" (-3) (by decide) (by decide)

/-- C9: create_model on a google configuration fails unconditionally with
the NotImplementedError raised by the GoogleModel constructor before the
api key is read, for every model name, api key value and connection
state. -/
theorem create_model_google_raises (ping : String → Except String Unit)
    (name : String) (apiKey : Option String) (baseUrl : Option String) :
    create_model ping ⟨"google", name, apiKey, baseUrl⟩
      = Except.error (PyError.notImplementedError googleInitMsg) :=
  rfl

/-- C10: constructing a HuggingFace wrapper with an empty api key succeeds
and its Authorization header is omitted, while the Groq, Together and
Cohere constructors reject an empty api key with ValueError; this holds for
every model name. -/
theorem empty_api_key_asymmetry (name : String) :
    HuggingFaceModel_init name "" = Except.ok (ModelHandle.huggingface name "") ∧
    hfHeaders "" = [] ∧
    GroqModel_init name ""
      = Except.error (PyError.valueError "Groq API key is required") ∧
    TogetherModel_init name ""
      = Except.error (PyError.valueError "Together API key is required") ∧
    CohereModel_init name ""
      = Except.error (PyError.valueError "Cohere API key is required") :=
  ⟨rfl, rfl, rfl, rfl, rfl⟩

end Krabby
